import Mathlib

/-!
Verification of the `copilot-testing` repository's backend bootstrap
(`packages/server/src/main.ts`, reproduced in `.github/copilot-instructions.md`):

  async function bootstrap() {
    const app = await NestFactory.create(AppModule);
    await app.listen(3000);
    // eslint-disable-next-line no-console
    console.log('Server running on http://localhost:3000');
  }
  bootstrap();

The bootstrap is embedded as a straight-line statement sequence executed
against an environment `Env` that decides how each awaited framework call
(`NestFactory.create`, `app.listen`) resolves.  Execution produces a trace of
observable effects and, when an awaited call rejects, an unhandled startup
failure; a rejected `await` aborts the remaining statements of the sequence,
exactly as an async function body propagates a rejection.
-/

namespace CopilotTesting

/-- A JavaScript error value, e.g. the reason of a rejected promise. -/
structure JsError where
  message : String
deriving DecidableEq

/-- The framework application handle returned by `NestFactory.create`;
the repository's code only ever stores it and calls `listen` on it. -/
structure App where
  moduleName : String
deriving DecidableEq

/-- The name of the root module passed to `NestFactory.create`. -/
def AppModuleName : String := "AppModule"

/-- The observable effects a Node process could perform.  The constructors
beyond the first three (`readRecord`, `writeRecord`, `handleRequest`,
`closeServer`, `exitProcess`) are ambient capabilities of the platform;
whether the repository's own code ever emits them is exactly what several
claims ask. -/
inductive Effect where
  | createCall (moduleName : String)
  | listenCall (port : Nat)
  | consoleLog (msg : String)
  | readRecord (key : String)
  | writeRecord (key : String) (value : String)
  | handleRequest (route : String)
  | closeServer
  | exitProcess (code : Nat)
deriving DecidableEq

/-- Whether an effect is one of the bootstrap's awaited framework calls. -/
def Effect.isAwaited : Effect → Bool
  | .createCall _ => true
  | .listenCall _ => true
  | _ => false

/-- Whether an effect reads or writes a persistent record. -/
def Effect.isDomainData : Effect → Bool
  | .readRecord _ => true
  | .writeRecord _ _ => true
  | _ => false

/-- Whether an effect stops the server or exits the process. -/
def Effect.isShutdown : Effect → Bool
  | .closeServer => true
  | .exitProcess _ => true
  | _ => false

/-- Whether an effect answers an HTTP request itself (rather than
delegating to the framework). -/
def Effect.isRequestHandling : Effect → Bool
  | .handleRequest _ => true
  | _ => false

/-- Whether an effect writes to the console. -/
def Effect.isLog : Effect → Bool
  | .consoleLog _ => true
  | _ => false

/-- How the third-party framework resolves the two awaited calls of the
bootstrap: `createResult` is what `NestFactory.create` settles to for a given
module, `listenResult` what `app.listen(port)` settles to.  The framework is
external code, so both outcomes are parameters of the model. -/
structure Env where
  createResult : String → Except JsError App
  listenResult : App → Nat → Except JsError Unit

/-- Outcome of the bootstrap invocation at the end of `main.ts`. -/
inductive Outcome where
  | running
  | startupFailure (e : JsError)
deriving DecidableEq

/-- The statements of the bootstrap body, in source order. -/
inductive Stmt where
  | awaitCreate
  | awaitListen (port : Nat)
  | logMsg (msg : String)
deriving DecidableEq

/-- The startup message logged by the bootstrap. -/
def serverMsg : String := "Server running on http://localhost:3000"

/-- The body of `bootstrap()` as written in `main.ts`: construct the
application, await `listen(3000)`, log the startup message. -/
def bootstrapBody : List Stmt :=
  [Stmt.awaitCreate, Stmt.awaitListen 3000, Stmt.logMsg serverMsg]

/-- Execution state of the async function body: the local `const app`
binding, the trace of effects performed so far, and `some` outcome once an
awaited call has rejected (after which no further statement runs). -/
structure St where
  app : Option App
  trace : List Effect
  outcome? : Option Outcome
deriving DecidableEq

/-- The initial state: no app handle, nothing performed. -/
def initSt : St := { app := none, trace := [], outcome? := none }

/-- Execute one statement.  A statement after a rejected `await` does not
run; a rejected `await` records the unhandled startup failure. -/
def execStmt (env : Env) (s : St) : Stmt → St
  | Stmt.awaitCreate =>
    match s.outcome? with
    | some _ => s
    | none =>
      match env.createResult AppModuleName with
      | Except.error e =>
        { s with trace := s.trace ++ [Effect.createCall AppModuleName],
                 outcome? := some (Outcome.startupFailure e) }
      | Except.ok app =>
        { s with app := some app,
                 trace := s.trace ++ [Effect.createCall AppModuleName] }
  | Stmt.awaitListen p =>
    match s.outcome? with
    | some _ => s
    | none =>
      match s.app with
      | none => s
      | some app =>
        match env.listenResult app p with
        | Except.error e =>
          { s with trace := s.trace ++ [Effect.listenCall p],
                   outcome? := some (Outcome.startupFailure e) }
        | Except.ok _ =>
          { s with trace := s.trace ++ [Effect.listenCall p] }
  | Stmt.logMsg m =>
    match s.outcome? with
    | some _ => s
    | none => { s with trace := s.trace ++ [Effect.consoleLog m] }

/-- Execute a statement sequence from a state. -/
def runStmts (env : Env) : List Stmt → St → St
  | [], s => s
  | stmt :: rest, s => runStmts env rest (execStmt env s stmt)

/-- The final state of running `bootstrap()` against `env`. -/
def bootstrap (env : Env) : St :=
  runStmts env bootstrapBody initSt

/-- The state after the first `k` statements of the bootstrap body. -/
def stAfter (env : Env) (k : Nat) : St :=
  runStmts env (bootstrapBody.take k) initSt

/-- The outcome of the whole invocation: the recorded startup failure when an
awaited call rejected, else the process keeps running (the live listener keeps
the event loop alive; the bootstrap never stops it). -/
def finalOutcome (env : Env) : Outcome :=
  match (bootstrap env).outcome? with
  | some o => o
  | none => Outcome.running

/-- The module top level of `main.ts` invokes `bootstrap()`.  The process
arguments and environment variables are in scope for any Node script, but
this module never consults them. -/
def mainModule (_argv : List String) (_osEnv : List (String × String))
    (env : Env) : St :=
  bootstrap env

/-- Number of awaited operations in a trace. -/
def awaitedCount (tr : List Effect) : Nat :=
  tr.countP fun e => e.isAwaited

/-- Modelled from the spec: the default route handler lives in
`packages/server/src/app.controller.ts`, which is not among the sources; the
spec says the service "becomes able to answer whatever default route the
framework scaffold provides out of the box" once "the underlying framework is
fully started".  We model this as: the service answers the default route in
exactly those states where the awaited `listen` call has resolved without a
startup failure. -/
def answersDefaultRoute (s : St) : Bool :=
  s.outcome?.isNone && decide (Effect.listenCall 3000 ∈ s.trace)

/-- An environment in which both framework calls succeed. -/
def happyEnv : Env where
  createResult := fun m => Except.ok { moduleName := m }
  listenResult := fun _ _ => Except.ok ()

/-- An environment in which the port is already in use: `listen` rejects. -/
def eaddrinuseEnv : Env where
  createResult := fun m => Except.ok { moduleName := m }
  listenResult := fun _ _ => Except.error { message := "EADDRINUSE" }

/-- An environment in which `NestFactory.create` itself rejects. -/
def createFailEnv : Env where
  createResult := fun _ => Except.error { message := "ModuleInitError" }
  listenResult := fun _ _ => Except.ok ()

/-- Case analysis of the bootstrap: the create call rejects, or create
succeeds and listen rejects, or both succeed; in each case the final state
is fully determined. -/
theorem bootstrap_cases (env : Env) :
    (∃ e, env.createResult AppModuleName = Except.error e ∧
      bootstrap env =
        { app := none, trace := [Effect.createCall AppModuleName],
          outcome? := some (Outcome.startupFailure e) }) ∨
    (∃ app e, env.createResult AppModuleName = Except.ok app ∧
      env.listenResult app 3000 = Except.error e ∧
      bootstrap env =
        { app := some app,
          trace := [Effect.createCall AppModuleName, Effect.listenCall 3000],
          outcome? := some (Outcome.startupFailure e) }) ∨
    (∃ app, env.createResult AppModuleName = Except.ok app ∧
      env.listenResult app 3000 = Except.ok () ∧
      bootstrap env =
        { app := some app,
          trace := [Effect.createCall AppModuleName, Effect.listenCall 3000,
                    Effect.consoleLog serverMsg],
          outcome? := none }) := by
  cases hc : env.createResult AppModuleName with
  | error e =>
    exact Or.inl ⟨e, rfl, by
      simp [bootstrap, bootstrapBody, runStmts, execStmt, initSt, hc]⟩
  | ok app =>
    cases hl : env.listenResult app 3000 with
    | error e =>
      exact Or.inr (Or.inl ⟨app, e, rfl, hl, by
        simp [bootstrap, bootstrapBody, runStmts, execStmt, initSt, hc, hl]⟩)
    | ok u =>
      exact Or.inr (Or.inr ⟨app, rfl, by cases u; exact hl, by
        simp [bootstrap, bootstrapBody, runStmts, execStmt, initSt, hc, hl]⟩)

/-- The trace of a run is one of three closed lists, cut at the first
rejected awaited call. -/
theorem bootstrap_trace_cases (env : Env) :
    (bootstrap env).trace = [Effect.createCall AppModuleName] ∨
    (bootstrap env).trace =
      [Effect.createCall AppModuleName, Effect.listenCall 3000] ∨
    (bootstrap env).trace =
      [Effect.createCall AppModuleName, Effect.listenCall 3000,
       Effect.consoleLog serverMsg] := by
  rcases bootstrap_cases env with ⟨e, hc, hb⟩ | ⟨app, e, hc, hl, hb⟩ | ⟨app, hc, hl, hb⟩ <;>
    rw [hb] <;> simp

/-- The states the bootstrap execution passes through are the states after
zero, one, two or all three statements of the body. -/
theorem stAfter_enum (env : Env) (k : Nat) :
    stAfter env k = initSt ∨
    stAfter env k = runStmts env [Stmt.awaitCreate] initSt ∨
    stAfter env k = runStmts env [Stmt.awaitCreate, Stmt.awaitListen 3000] initSt ∨
    stAfter env k = bootstrap env := by
  match k with
  | 0 => exact Or.inl rfl
  | 1 => exact Or.inr (Or.inl rfl)
  | 2 => exact Or.inr (Or.inr (Or.inl rfl))
  | (n + 3) =>
    refine Or.inr (Or.inr (Or.inr ?_))
    have h : bootstrapBody.take (n + 3) = bootstrapBody := by
      apply List.take_of_length_le
      simp [bootstrapBody]
    rw [stAfter, h, bootstrap]

/-- A state of the bootstrap execution that answers the default route has
both the creation call and the listen call on 3000 already in its trace. -/
theorem answers_imp_started (env : Env) (k : Nat)
    (h : answersDefaultRoute (stAfter env k) = true) :
    Effect.createCall AppModuleName ∈ (stAfter env k).trace ∧
    Effect.listenCall 3000 ∈ (stAfter env k).trace := by
  have hmem : Effect.listenCall 3000 ∈ (stAfter env k).trace := by
    have := (Bool.and_eq_true _ _).mp h
    exact of_decide_eq_true this.2
  refine ⟨?_, hmem⟩
  rcases stAfter_enum env k with hs | hs | hs | hs
  · rw [hs] at hmem; simp [initSt] at hmem
  · rw [hs] at hmem ⊢
    cases hc : env.createResult AppModuleName with
    | error e => simp [runStmts, execStmt, initSt, hc] at hmem ⊢
    | ok app => simp [runStmts, execStmt, initSt, hc]
  · rw [hs] at hmem ⊢
    cases hc : env.createResult AppModuleName with
    | error e => simp [runStmts, execStmt, initSt, hc] at hmem ⊢
    | ok app =>
      cases hl : env.listenResult app 3000 with
      | error e => simp [runStmts, execStmt, initSt, hc, hl]
      | ok u => simp [runStmts, execStmt, initSt, hc, hl]
  · rw [hs] at hmem ⊢
    rcases bootstrap_cases env with ⟨e, hc, hb⟩ | ⟨app, e, hc, hl, hb⟩ | ⟨app, hc, hl, hb⟩ <;>
      rw [hb] at hmem ⊢ <;> simp_all

/-- C1: every port the bootstrap passes to the framework's listen call is
exactly 3000; whenever application creation succeeds the listen call on 3000
is made; and the service answers the framework's default route only in
execution states reached after both the creation call and the listen call
on port 3000. -/
theorem c1_binds_3000_answers_after_started (env : Env) :
    (∀ p, Effect.listenCall p ∈ (bootstrap env).trace → p = 3000) ∧
    (∀ app, env.createResult AppModuleName = Except.ok app →
      Effect.listenCall 3000 ∈ (bootstrap env).trace) ∧
    (∀ k, answersDefaultRoute (stAfter env k) = true →
      Effect.createCall AppModuleName ∈ (stAfter env k).trace ∧
      Effect.listenCall 3000 ∈ (stAfter env k).trace) := by
  refine ⟨?_, ?_, fun k h => answers_imp_started env k h⟩
  · intro p hp
    rcases bootstrap_cases env with ⟨e, hc, hb⟩ | ⟨app, e, hc, hl, hb⟩ | ⟨app, hc, hl, hb⟩ <;>
      rw [hb] at hp <;> simp_all
  · intro app hc
    rcases bootstrap_cases env with ⟨e, hc', hb⟩ | ⟨app', e, hc', hl, hb⟩ | ⟨app', hc', hl, hb⟩ <;>
      rw [hb] <;> simp_all

/-- Witness for C1: in the all-success environment the listen call on 3000
occurs, and after the second statement the service answers the default route
with both framework calls in the trace. -/
theorem c1_witness :
    (Effect.listenCall 3000 ∈ (bootstrap happyEnv).trace ∧ (3000 : Nat) = 3000) ∧
    (answersDefaultRoute (stAfter happyEnv 2) = true ∧
      Effect.createCall AppModuleName ∈ (stAfter happyEnv 2).trace ∧
      Effect.listenCall 3000 ∈ (stAfter happyEnv 2).trace) :=
  ⟨⟨by decide, (c1_binds_3000_answers_after_started happyEnv).1 3000 (by decide)⟩,
   by decide,
   ((c1_binds_3000_answers_after_started happyEnv).2.2 2 (by decide)).1,
   ((c1_binds_3000_answers_after_started happyEnv).2.2 2 (by decide)).2⟩

/-- C2: the single bootstrap routine, on a successful run, performs exactly
the three steps start-server-on-3000 and log-one-message, and on every run
each effect it performs is one of those steps: it has no other observable
behaviour. -/
theorem c2_bootstrap_only_observable_behaviour (env : Env) :
    ((bootstrap env).outcome? = none →
      (bootstrap env).trace =
        [Effect.createCall AppModuleName, Effect.listenCall 3000,
         Effect.consoleLog serverMsg]) ∧
    (∀ x ∈ (bootstrap env).trace,
      x = Effect.createCall AppModuleName ∨ x = Effect.listenCall 3000 ∨
        x = Effect.consoleLog serverMsg) := by
  rcases bootstrap_cases env with ⟨e, hc, hb⟩ | ⟨app, e, hc, hl, hb⟩ | ⟨app, hc, hl, hb⟩ <;>
    rw [hb] <;> refine ⟨fun h => ?_, fun x hx => ?_⟩ <;> simp_all <;> tauto

/-- Witness for C2: in the all-success environment the bootstrap resolves and
its trace is exactly the three steps. -/
theorem c2_witness :
    (bootstrap happyEnv).outcome? = none ∧
    (bootstrap happyEnv).trace =
      [Effect.createCall AppModuleName, Effect.listenCall 3000,
       Effect.consoleLog serverMsg] :=
  ⟨by decide, (c2_bootstrap_only_observable_behaviour happyEnv).1 (by decide)⟩

/-- C3: the bootstrap handles no error.  If the creation call rejects, the
rejection propagates unchanged as the startup failure and nothing is logged;
if the listen call rejects (for example the port is already in use), that
rejection propagates unchanged as the startup failure and nothing is logged.
No recovery, retry or structured reporting happens: the failing run performs
no effect beyond the calls already made. -/
theorem c3_no_error_handling (env : Env) :
    (∀ e, env.createResult AppModuleName = Except.error e →
      (bootstrap env).outcome? = some (Outcome.startupFailure e) ∧
      (bootstrap env).trace = [Effect.createCall AppModuleName] ∧
      ∀ x ∈ (bootstrap env).trace, x.isLog = false) ∧
    (∀ app e, env.createResult AppModuleName = Except.ok app →
      env.listenResult app 3000 = Except.error e →
      (bootstrap env).outcome? = some (Outcome.startupFailure e) ∧
      (bootstrap env).trace =
        [Effect.createCall AppModuleName, Effect.listenCall 3000] ∧
      ∀ x ∈ (bootstrap env).trace, x.isLog = false) := by
  constructor
  · intro e hc
    rcases bootstrap_cases env with ⟨e', hc', hb⟩ | ⟨app', e', hc', hl, hb⟩ | ⟨app', hc', hl, hb⟩ <;>
      rw [hb] <;> rw [hc] at hc' <;> simp_all [Effect.isLog]
  · intro app e hc hl
    rcases bootstrap_cases env with ⟨e', hc', hb⟩ | ⟨app', e', hc', hl', hb⟩ | ⟨app', hc', hl', hb⟩ <;>
      rw [hb] <;> rw [hc] at hc' <;> simp_all [Effect.isLog]

/-- Witness for C3: with the port already in use, the EADDRINUSE rejection is
the recorded startup failure and no log effect appears in the trace. -/
theorem c3_witness :
    eaddrinuseEnv.createResult AppModuleName =
      Except.ok { moduleName := AppModuleName } ∧
    eaddrinuseEnv.listenResult { moduleName := AppModuleName } 3000 =
      Except.error { message := "EADDRINUSE" } ∧
    (bootstrap eaddrinuseEnv).outcome? =
      some (Outcome.startupFailure { message := "EADDRINUSE" }) ∧
    (bootstrap eaddrinuseEnv).trace =
      [Effect.createCall AppModuleName, Effect.listenCall 3000] :=
  ⟨rfl, rfl,
   ((c3_no_error_handling eaddrinuseEnv).2 { moduleName := AppModuleName }
      { message := "EADDRINUSE" } rfl rfl).1,
   ((c3_no_error_handling eaddrinuseEnv).2 { moduleName := AppModuleName }
      { message := "EADDRINUSE" } rfl rfl).2.1⟩

/-- C4: the bootstrap is a straight-line, unconfigurable sequence: the run is
identical whatever the command-line arguments and the OS environment are,
every run's trace is one of the three step sequences determined solely by
where the first framework rejection occurs, and the hard-coded 3000 is the
only port ever passed to listen. -/
theorem c4_straight_line_no_configuration (env : Env)
    (argv1 argv2 : List String) (osEnv1 osEnv2 : List (String × String)) :
    mainModule argv1 osEnv1 env = mainModule argv2 osEnv2 env ∧
    ((bootstrap env).trace = [Effect.createCall AppModuleName] ∨
      (bootstrap env).trace =
        [Effect.createCall AppModuleName, Effect.listenCall 3000] ∨
      (bootstrap env).trace =
        [Effect.createCall AppModuleName, Effect.listenCall 3000,
         Effect.consoleLog serverMsg]) ∧
    (∀ p, Effect.listenCall p ∈ (bootstrap env).trace → p = 3000) := by
  refine ⟨rfl, ?_, fun p hp => ?_⟩
  · rcases bootstrap_cases env with ⟨e, hc, hb⟩ | ⟨app, e, hc, hl, hb⟩ | ⟨app, hc, hl, hb⟩ <;>
      rw [hb] <;> simp
  · rcases bootstrap_cases env with ⟨e, hc, hb⟩ | ⟨app, e, hc, hl, hb⟩ | ⟨app, hc, hl, hb⟩ <;>
      rw [hb] at hp <;> simp_all

/-- Witness for C4: a run with a port flag and a PORT variable equals the run
with neither, and the port passed to listen is 3000. -/
theorem c4_witness :
    mainModule ["--port=9090"] [("PORT", "9090")] happyEnv =
      mainModule [] [] happyEnv ∧
    Effect.listenCall 3000 ∈ (bootstrap happyEnv).trace ∧ (3000 : Nat) = 3000 :=
  ⟨(c4_straight_line_no_configuration happyEnv ["--port=9090"] []
      [("PORT", "9090")] []).1,
   by decide,
   (c4_straight_line_no_configuration happyEnv ["--port=9090"] []
      [("PORT", "9090")] []).2.2 3000 (by decide)⟩

/-- C5 as stated fails: on a successful run the bootstrap body does not
consist of the two steps create and listen alone; it also logs the startup
message. -/
theorem c5_counterexample :
    (bootstrap happyEnv).trace ≠
      [Effect.createCall AppModuleName, Effect.listenCall 3000] ∧
    Effect.consoleLog serverMsg ∈ (bootstrap happyEnv).trace := by decide

/-- C5 amended: the backend bootstrap body is the three-statement sequence
construct-the-application, listen on the fixed port 3000, and log one startup
message — and nothing more; on a successful run exactly those three effects
occur and the retained application object is the one the framework returned. -/
theorem c5_body_create_listen_log (env : Env) :
    bootstrapBody =
      [Stmt.awaitCreate, Stmt.awaitListen 3000, Stmt.logMsg serverMsg] ∧
    ((bootstrap env).outcome? = none →
      (bootstrap env).trace =
        [Effect.createCall AppModuleName, Effect.listenCall 3000,
         Effect.consoleLog serverMsg] ∧
      ∃ app, env.createResult AppModuleName = Except.ok app ∧
        (bootstrap env).app = some app) := by
  refine ⟨rfl, fun h => ?_⟩
  rcases bootstrap_cases env with ⟨e, hc, hb⟩ | ⟨app, e, hc, hl, hb⟩ | ⟨app, hc, hl, hb⟩ <;>
    rw [hb] at h ⊢ <;> simp_all

/-- Witness for C5 amended: the all-success run resolves and shows the three
effects with the retained handle. -/
theorem c5_witness :
    (bootstrap happyEnv).outcome? = none ∧
    (bootstrap happyEnv).trace =
      [Effect.createCall AppModuleName, Effect.listenCall 3000,
       Effect.consoleLog serverMsg] :=
  ⟨by decide, ((c5_body_create_listen_log happyEnv).2 (by decide)).1⟩

/-- C6 as stated fails: a successful run awaits two operations — the creation
call and the listen call — not a single one. -/
theorem c6_counterexample :
    awaitedCount (bootstrap happyEnv).trace = 2 ∧
    awaitedCount (bootstrap happyEnv).trace ≠ 1 := by decide

/-- C6 amended: the scaffold's own code performs exactly two awaited startup
calls (application creation and listen) on a successful run and never more
than two; each awaited effect is one of those two calls, and no run ever
answers a request itself — request handling stays with the framework. -/
theorem c6_two_awaited_calls_rest_delegated (env : Env) :
    ((bootstrap env).outcome? = none → awaitedCount (bootstrap env).trace = 2) ∧
    awaitedCount (bootstrap env).trace ≤ 2 ∧
    (∀ x ∈ (bootstrap env).trace, x.isAwaited = true →
      x = Effect.createCall AppModuleName ∨ x = Effect.listenCall 3000) ∧
    (∀ x ∈ (bootstrap env).trace, x.isRequestHandling = false) := by
  refine ⟨fun h => ?_, ?_, ?_, ?_⟩
  · rcases bootstrap_cases env with ⟨e, hc, hb⟩ | ⟨app, e, hc, hl, hb⟩ | ⟨app, hc, hl, hb⟩ <;>
      rw [hb] at h ⊢ <;> simp_all [awaitedCount, Effect.isAwaited]
  · rcases bootstrap_trace_cases env with h | h | h <;> rw [h] <;> decide
  · rcases bootstrap_trace_cases env with h | h | h <;> rw [h] <;> decide
  · rcases bootstrap_trace_cases env with h | h | h <;> rw [h] <;> decide

/-- Witness for C6 amended: the all-success run awaits exactly two
operations. -/
theorem c6_witness :
    (bootstrap happyEnv).outcome? = none ∧
    awaitedCount (bootstrap happyEnv).trace = 2 :=
  ⟨by decide, (c6_two_awaited_calls_rest_delegated happyEnv).1 (by decide)⟩

/-- C7: when both startup calls succeed, the run binds the configured port
3000 and the final outcome is that the process remains running; and no run
ever performs a shutdown effect — the bootstrap never closes the server or
exits the process after a successful listen. -/
theorem c7_binds_and_remains_running (env : Env) :
    (∀ app, env.createResult AppModuleName = Except.ok app →
      env.listenResult app 3000 = Except.ok () →
      Effect.listenCall 3000 ∈ (bootstrap env).trace ∧
      finalOutcome env = Outcome.running) ∧
    (∀ x ∈ (bootstrap env).trace, x.isShutdown = false) := by
  constructor
  · intro app hc hl
    rcases bootstrap_cases env with ⟨e', hc', hb⟩ | ⟨app', e', hc', hl', hb⟩ | ⟨app', hc', hl', hb⟩ <;>
      rw [hc] at hc' <;> simp_all [finalOutcome]
  · rcases bootstrap_trace_cases env with h | h | h <;> rw [h] <;> decide

/-- Witness for C7: the all-success run has the listen call on 3000 in its
trace and ends with the process running. -/
theorem c7_witness :
    happyEnv.createResult AppModuleName =
      Except.ok { moduleName := AppModuleName } ∧
    happyEnv.listenResult { moduleName := AppModuleName } 3000 = Except.ok () ∧
    Effect.listenCall 3000 ∈ (bootstrap happyEnv).trace ∧
    finalOutcome happyEnv = Outcome.running :=
  ⟨rfl, rfl,
   ((c7_binds_and_remains_running happyEnv).1 { moduleName := AppModuleName }
      rfl rfl).1,
   ((c7_binds_and_remains_running happyEnv).1 { moduleName := AppModuleName }
      rfl rfl).2⟩

/-- C8: the repository manipulates no domain data: no run performs a
persistent read or write, and the only in-memory value the bootstrap retains
is the framework application handle the creation call returned (or nothing,
when creation rejected). -/
theorem c8_no_domain_data (env : Env) :
    (∀ x ∈ (bootstrap env).trace, x.isDomainData = false) ∧
    ((bootstrap env).app = none ∨
      ∃ app, env.createResult AppModuleName = Except.ok app ∧
        (bootstrap env).app = some app) := by
  constructor
  · rcases bootstrap_trace_cases env with h | h | h <;> rw [h] <;> decide
  · rcases bootstrap_cases env with ⟨e, hc, hb⟩ | ⟨app, e, hc, hl, hb⟩ | ⟨app, hc, hl, hb⟩ <;>
      rw [hb] <;> simp_all

/-- Witness for C8: the creation effect is in the all-success trace and is
not a domain-data effect. -/
theorem c8_witness :
    Effect.createCall AppModuleName ∈ (bootstrap happyEnv).trace ∧
    Effect.isDomainData (Effect.createCall AppModuleName) = false :=
  ⟨by decide, (c8_no_domain_data happyEnv).1 _ (by decide)⟩

/-- C9: the bound port depends on no command-line flag and no environment
variable: two runs with arbitrary different arguments and environments have
identical traces, and every port passed to listen is 3000. -/
theorem c9_port_independent_of_cli_env (env : Env)
    (argv1 argv2 : List String) (osEnv1 osEnv2 : List (String × String)) :
    (mainModule argv1 osEnv1 env).trace = (mainModule argv2 osEnv2 env).trace ∧
    (∀ p, Effect.listenCall p ∈ (mainModule argv1 osEnv1 env).trace →
      p = 3000) := by
  refine ⟨rfl, fun p hp => ?_⟩
  rcases bootstrap_cases env with ⟨e, hc, hb⟩ | ⟨app, e, hc, hl, hb⟩ | ⟨app, hc, hl, hb⟩ <;>
    rw [mainModule, hb] at hp <;> simp_all

/-- Witness for C9: a run with a port flag and PORT variable set matches the
run with neither, and its listen call uses port 3000. -/
theorem c9_witness :
    (mainModule ["--port=9999"] [("PORT", "9999")] happyEnv).trace =
      (mainModule [] [] happyEnv).trace ∧
    Effect.listenCall 3000 ∈
      (mainModule ["--port=9999"] [("PORT", "9999")] happyEnv).trace ∧
    (3000 : Nat) = 3000 :=
  ⟨(c9_port_independent_of_cli_env happyEnv ["--port=9999"] []
      [("PORT", "9999")] []).1,
   by decide,
   (c9_port_independent_of_cli_env happyEnv ["--port=9999"] []
      [("PORT", "9999")] []).2 3000 (by decide)⟩

/-- C10: a log effect occurs only when both the creation call and the listen
call on 3000 resolved successfully; it is then the last of the three effects
of the run, its text is exactly the startup message, and that text names the
same port 3000 that was passed to listen. -/
theorem c10_log_only_after_successful_startup (env : Env) :
    (∀ m, Effect.consoleLog m ∈ (bootstrap env).trace →
      m = serverMsg ∧
      (∃ app, env.createResult AppModuleName = Except.ok app ∧
        env.listenResult app 3000 = Except.ok ()) ∧
      (bootstrap env).trace =
        [Effect.createCall AppModuleName, Effect.listenCall 3000,
         Effect.consoleLog serverMsg]) ∧
    serverMsg = "Server running on http://localhost:" ++ toString (3000 : Nat) := by
  refine ⟨fun m hm => ?_, by decide⟩
  rcases bootstrap_cases env with ⟨e, hc, hb⟩ | ⟨app, e, hc, hl, hb⟩ | ⟨app, hc, hl, hb⟩ <;>
    rw [hb] at hm ⊢ <;> simp_all

/-- Witness for C10: in the all-success run the startup message is logged,
its text names port 3000, and it is the final effect of the trace. -/
theorem c10_witness :
    Effect.consoleLog serverMsg ∈ (bootstrap happyEnv).trace ∧
    serverMsg = "Server running on http://localhost:" ++ toString (3000 : Nat) ∧
    (bootstrap happyEnv).trace =
      [Effect.createCall AppModuleName, Effect.listenCall 3000,
       Effect.consoleLog serverMsg] :=
  ⟨by decide, (c10_log_only_after_successful_startup happyEnv).2,
   ((c10_log_only_after_successful_startup happyEnv).1 serverMsg
      (by decide)).2.2⟩

end CopilotTesting
